import Mathlib

/-!
Shallow embedding of `src/Pods/gRPC-Core/src/core/ext/filters/client_channel/resolver.h`
(class `grpc_core::Resolver`), together with the lifecycle / shutdown protocol it
implements.  The header concretely defines `Orphan()` (schedules
`ShutdownAndUnrefLocked` onto the combiner), `ShutdownAndUnrefLocked` (runs
`ShutdownLocked()` then `Unref()`), and the `combiner()` accessor.  The virtual
methods `NextLocked`, `RequestReresolutionLocked` and `ShutdownLocked` are
`GRPC_ABSTRACT` and their implementations, as well as the reference-count wrapper
`InternallyRefCountedWithTracing` (orphanable.h) and the constructor body
(resolver.cc), live outside the sources available here; those parts are modelled
from the specification, as marked on each definition.

The combiner/serializer is modelled as a per-resolver FIFO task queue; callbacks
(`grpc_closure*`) are identified by natural numbers; completions, shutdown runs
and reference releases are recorded as trace events so that ordering and
exactly-once properties can be stated.
-/

namespace VisEDResolver

/-- Model of `grpc_combiner*`: an opaque handle, identified by a number. -/
abbrev grpc_combiner := Nat

/-- Model of `grpc_channel_args`: an opaque immutable snapshot of resolved
configuration (addresses plus attributes).  A `NextLocked` output slot holds
`Option grpc_channel_args`, with `none` modelling a null pointer. -/
structure grpc_channel_args where
  addresses : List Nat
deriving DecidableEq, Repr

/-- Model of `grpc_error*`: either `GRPC_ERROR_NONE` or an error condition. -/
inductive grpc_error where
  | none
  | cancelled
deriving DecidableEq, Repr

/-- A task scheduled on the combiner.  The only task the header itself schedules
is the closure over `Resolver::ShutdownAndUnrefLocked` created in `Orphan()`. -/
inductive CombinerTask where
  | shutdownAndUnref
deriving DecidableEq, Repr

/-- Observable events: scheduling the shutdown task, a run of `ShutdownLocked`,
a completion delivered to a registered `on_complete` closure (carrying the
value written into the output slot and the error passed to the closure), and
the release of one reference count. -/
inductive TraceEvent where
  | taskScheduled
  | shutdownLockedRun
  | completed (cb : Nat) (result : Option grpc_channel_args) (error : grpc_error)
  | refReleased
deriving DecidableEq, Repr

/-- State of one resolver: its reference count, the stored combiner handle
`combiner_`, the external combiner's own reference count (tracked to state the
not-owned frame condition), the at-most-one pending delivery (`on_complete`
closure id), the tasks scheduled on its combiner, whether `ShutdownLocked` has
completed, whether the object has been destroyed, and the modelled backend
state: the last-known-good result, whether resolution is fatally broken, and
whether a re-resolution requested while no delivery was pending obliges the
next delivery to complete immediately. -/
structure ResolverState where
  refCount : Nat
  combiner : grpc_combiner
  combinerRefCount : Nat
  pending : Option Nat
  queue : List CombinerTask
  shutdownDone : Bool
  destroyed : Bool
  cached : Option grpc_channel_args
  fatal : Bool
  redeliver : Bool
deriving DecidableEq, Repr

/-- Modelled from the spec: the constructor `Resolver::Resolver(grpc_combiner*)`
is declared at resolver.h:106 but its body (resolver.cc) and the
reference-count wrapper `InternallyRefCountedWithTracing` (orphanable.h) are
outside the available sources.  Spec: "Create | serializer handle | new
Resolver (ref count = 1)"; "Does NOT take ownership of the reference to
combiner" (resolver.h:102), so the combiner's own reference count is left
unchanged. -/
def Resolver.create (combiner : grpc_combiner) (combinerRefCount : Nat) : ResolverState :=
  { refCount := 1
    combiner := combiner
    combinerRefCount := combinerRefCount
    pending := none
    queue := []
    shutdownDone := false
    destroyed := false
    cached := none
    fatal := false
    redeliver := false }

/-- `grpc_combiner* combiner() const { return combiner_; }` (resolver.h:114). -/
def Resolver.combiner (s : ResolverState) : grpc_combiner :=
  s.combiner

/-- `Resolver::Orphan()` (resolver.h:91-97): creates one closure over
`ShutdownAndUnrefLocked` with `grpc_combiner_scheduler(combiner_)` and
schedules it; nothing runs synchronously. -/
def Resolver.Orphan (s : ResolverState) : ResolverState × List TraceEvent :=
  ({ s with queue := s.queue ++ [CombinerTask.shutdownAndUnref] },
   [TraceEvent.taskScheduled])

/-- Modelled from the spec: `ShutdownLocked` is `GRPC_ABSTRACT` (resolver.h:112)
and no implementation is in the available sources.  Its documented contract
(resolver.h:110-111): "Shuts down the resolver.  If there is a pending call to
NextLocked(), the callback will be scheduled with an error."; spec 4.1: a
pending delivery is completed with a fatal-failure (absent) result. -/
def Resolver.ShutdownLocked (s : ResolverState) : ResolverState × List TraceEvent :=
  match s.pending with
  | some cb =>
      ({ s with pending := none, shutdownDone := true },
       [TraceEvent.shutdownLockedRun,
        TraceEvent.completed cb none grpc_error.cancelled])
  | none =>
      ({ s with shutdownDone := true }, [TraceEvent.shutdownLockedRun])

/-- Modelled from the spec: `Unref` comes from `InternallyRefCountedWithTracing`
(orphanable.h), outside the available sources.  Spec 3: "destroyed only when
reference count reaches zero". -/
def Resolver.Unref (s : ResolverState) : ResolverState × List TraceEvent :=
  if s.refCount - 1 = 0 then
    ({ s with refCount := 0, destroyed := true }, [TraceEvent.refReleased])
  else
    ({ s with refCount := s.refCount - 1 }, [TraceEvent.refReleased])

/-- Modelled from the spec: `Ref` comes from `InternallyRefCountedWithTracing`
(orphanable.h), outside the available sources. -/
def Resolver.Ref (s : ResolverState) : ResolverState :=
  { s with refCount := s.refCount + 1 }

/-- `Resolver::ShutdownAndUnrefLocked` (resolver.h:117-121): runs
`resolver->ShutdownLocked()` and then `resolver->Unref()`, in that order. -/
def Resolver.ShutdownAndUnrefLocked (s : ResolverState) : ResolverState × List TraceEvent :=
  let r1 := Resolver.ShutdownLocked s
  let r2 := Resolver.Unref r1.1
  (r2.1, r1.2 ++ r2.2)

/-- A protocol violation: issuing a second delivery request while one is
outstanding (spec 7: "implementations may assert/abort"). -/
inductive ResolverError where
  | pendingDeliveryAlreadyExists
deriving DecidableEq, Repr

/-- Modelled from the spec: `NextLocked` is `GRPC_ABSTRACT` (resolver.h:62-63)
and backend implementations are outside the available sources.  Documented
contract (resolver.h:51-55): when the new result is available, sets `*result`
to the new result and schedules `on_complete`; if resolution is fatally
broken, sets `*result` to nullptr and schedules `on_complete` with an error.
Spec 3: a second delivery request while one is outstanding is erroneous and is
asserted, never silently queued or dropped.  A pull-based backend deferring
after a re-resolution request completes immediately with a copy of the
last-known-good result (resolver.h:79-86); otherwise the request is registered
as the pending delivery. -/
def Resolver.NextLocked (s : ResolverState) (cb : Nat) :
    Except ResolverError (ResolverState × List TraceEvent) :=
  match s.pending with
  | some _ => Except.error ResolverError.pendingDeliveryAlreadyExists
  | none =>
      if s.fatal then
        Except.ok (s, [TraceEvent.completed cb none grpc_error.cancelled])
      else if s.redeliver then
        Except.ok ({ s with redeliver := false },
                   [TraceEvent.completed cb s.cached grpc_error.none])
      else
        Except.ok ({ s with pending := some cb }, [])

/-- Modelled from the spec: `RequestReresolutionLocked` is `GRPC_ABSTRACT`
(resolver.h:89).  Documented contract (resolver.h:79-86): all resolvers are
currently required to return a new result shortly after this method is called;
an implementation that delays querying the name service immediately returns a
new copy of the previously returned result.  With a delivery pending, the
pending delivery is completed at once; otherwise the next delivery request is
obliged to complete immediately. -/
def Resolver.RequestReresolutionLocked (s : ResolverState) :
    ResolverState × List TraceEvent :=
  match s.pending with
  | some cb =>
      ({ s with pending := none },
       [TraceEvent.completed cb s.cached grpc_error.none])
  | none =>
      ({ s with redeliver := true }, [])

/-- The operation alphabet available on a live resolver.  It mirrors the
callable surface of the class: the public methods `NextLocked`,
`RequestReresolutionLocked`, `Orphan`, the wrapper's `Ref`/`Unref`, and the
external serializer executing the head of the task queue.  There is no direct
destruction and no copy: the copy constructor and copy assignment are deleted
(resolver.h:48-49) and the destructor is protected (resolver.h:108). -/
inductive ClientOp where
  | nextLocked (cb : Nat)
  | requestReresolution
  | orphan
  | addRef
  | releaseRef
  | runSerializerTask
deriving DecidableEq, Repr

/-- One step of the protocol: dispatches a `ClientOp` to the corresponding
operation.  `runSerializerTask` pops the head task of the combiner queue and
executes it (the only task kind is the shutdown closure scheduled by
`Orphan`). -/
def execOp (s : ResolverState) (op : ClientOp) :
    Except ResolverError (ResolverState × List TraceEvent) :=
  match op with
  | ClientOp.nextLocked cb => Resolver.NextLocked s cb
  | ClientOp.requestReresolution => Except.ok (Resolver.RequestReresolutionLocked s)
  | ClientOp.orphan => Except.ok (Resolver.Orphan s)
  | ClientOp.addRef => Except.ok (Resolver.Ref s, [])
  | ClientOp.releaseRef => Except.ok (Resolver.Unref s)
  | ClientOp.runSerializerTask =>
      match s.queue with
      | [] => Except.ok (s, [])
      | CombinerTask.shutdownAndUnref :: rest =>
          Except.ok (Resolver.ShutdownAndUnrefLocked { s with queue := rest })

/-- Runs a sequence of operations, accumulating the emitted trace; a protocol
violation aborts the run. -/
def runOps (s : ResolverState) :
    List ClientOp → Except ResolverError (ResolverState × List TraceEvent)
  | [] => Except.ok (s, [])
  | op :: ops =>
      match execOp s op with
      | Except.error e => Except.error e
      | Except.ok (s', tr) =>
          match runOps s' ops with
          | Except.error e => Except.error e
          | Except.ok (s'', tr') => Except.ok (s'', tr ++ tr')

/-- Number of `orphan` operations in a sequence. -/
def countOrphans : List ClientOp → Nat
  | [] => 0
  | ClientOp.orphan :: ops => countOrphans ops + 1
  | _ :: ops => countOrphans ops

/-- Number of `ShutdownLocked` runs recorded in a trace. -/
def countShutdownRuns : List TraceEvent → Nat
  | [] => 0
  | TraceEvent.shutdownLockedRun :: tr => countShutdownRuns tr + 1
  | _ :: tr => countShutdownRuns tr

/-- Number of reference releases recorded in a trace. -/
def countRefReleases : List TraceEvent → Nat
  | [] => 0
  | TraceEvent.refReleased :: tr => countRefReleases tr + 1
  | _ :: tr => countRefReleases tr

/-- Number of completions delivered in a trace. -/
def countCompletions : List TraceEvent → Nat
  | [] => 0
  | TraceEvent.completed _ _ _ :: tr => countCompletions tr + 1
  | _ :: tr => countCompletions tr

/-- Every holder of a reference releases only references it holds: with `ext`
external references currently held, each `releaseRef` is preceded by enough
`addRef` operations (spec 3: "every holder of a Resolver must release its
reference exactly once"; the creator's reference is released by the shutdown
task, not by `releaseRef`). -/
def releasesBalanced : List ClientOp → Nat → Bool
  | [], _ => true
  | ClientOp.addRef :: ops, ext => releasesBalanced ops (ext + 1)
  | ClientOp.releaseRef :: ops, ext =>
      match ext with
      | 0 => false
      | ext' + 1 => releasesBalanced ops ext'
  | _ :: ops, ext => releasesBalanced ops ext

/-- Ghost invariant for the lifecycle proof, with `ext` external references
currently held and `rem` orphan operations still to come.  Before shutdown the
reference count is the "active" reference plus `ext`, at most one shutdown
task can ever exist, and the resolver is not destroyed; after shutdown the
active reference has been released, the task queue is empty and no further
orphan occurs. -/
def LifecycleInv (s : ResolverState) (ext rem : Nat) : Prop :=
  (s.shutdownDone = false →
    s.refCount = 1 + ext ∧ s.queue.length + rem ≤ 1 ∧ s.destroyed = false)
  ∧ (s.shutdownDone = true →
    s.refCount = ext ∧ s.queue = [] ∧ rem = 0)

/-! Helper lemmas shared by the claim theorems. -/

lemma Unref_snd (s : ResolverState) : (Resolver.Unref s).2 = [TraceEvent.refReleased] := by
  unfold Resolver.Unref
  split <;> rfl

lemma Unref_refCount (s : ResolverState) : (Resolver.Unref s).1.refCount = s.refCount - 1 := by
  unfold Resolver.Unref
  split <;> simp_all

lemma ShutdownAndUnrefLocked_eq (s : ResolverState) :
    Resolver.ShutdownAndUnrefLocked s
      = ((Resolver.Unref (Resolver.ShutdownLocked s).1).1,
         (Resolver.ShutdownLocked s).2 ++ [TraceEvent.refReleased]) := by
  simp only [Resolver.ShutdownAndUnrefLocked]
  rw [Unref_snd]

lemma countShutdownRuns_append (tr tr' : List TraceEvent) :
    countShutdownRuns (tr ++ tr') = countShutdownRuns tr + countShutdownRuns tr' := by
  induction tr with
  | nil => simp [countShutdownRuns]
  | cons e tr ih => cases e <;> simp [countShutdownRuns, ih] <;> omega

lemma countRefReleases_append (tr tr' : List TraceEvent) :
    countRefReleases (tr ++ tr') = countRefReleases tr + countRefReleases tr' := by
  induction tr with
  | nil => simp [countRefReleases]
  | cons e tr ih => cases e <;> simp [countRefReleases, ih] <;> omega

lemma countCompletions_append (tr tr' : List TraceEvent) :
    countCompletions (tr ++ tr') = countCompletions tr + countCompletions tr' := by
  induction tr with
  | nil => simp [countCompletions]
  | cons e tr ih => cases e <;> simp [countCompletions, ih] <;> omega

/-! Claim theorems. -/

/-- C1: `Orphan()` does not run shutdown synchronously: it only appends one
copy of the shutdown task to the combiner queue, leaving the reference count,
the shutdown flag, the pending delivery and the destroyed flag unchanged and
emitting only a scheduling event; the scheduled task, when the combiner runs
it, executes `ShutdownLocked()` first and only afterwards releases exactly one
reference count. -/
theorem orphan_schedules_shutdown_then_unref (s : ResolverState) :
    (Resolver.Orphan s).1.queue = s.queue ++ [CombinerTask.shutdownAndUnref]
    ∧ (Resolver.Orphan s).1.refCount = s.refCount
    ∧ (Resolver.Orphan s).1.shutdownDone = s.shutdownDone
    ∧ (Resolver.Orphan s).1.pending = s.pending
    ∧ (Resolver.Orphan s).1.destroyed = s.destroyed
    ∧ (Resolver.Orphan s).2 = [TraceEvent.taskScheduled]
    ∧ (Resolver.ShutdownAndUnrefLocked s).1
        = (Resolver.Unref (Resolver.ShutdownLocked s).1).1
    ∧ (Resolver.ShutdownAndUnrefLocked s).2
        = (Resolver.ShutdownLocked s).2 ++ [TraceEvent.refReleased]
    ∧ (Resolver.ShutdownAndUnrefLocked s).2.head? = some TraceEvent.shutdownLockedRun
    ∧ countShutdownRuns (Resolver.ShutdownAndUnrefLocked s).2 = 1
    ∧ countRefReleases (Resolver.ShutdownAndUnrefLocked s).2 = 1
    ∧ (Resolver.ShutdownAndUnrefLocked s).1.refCount = s.refCount - 1 := by
  refine ⟨rfl, rfl, rfl, rfl, rfl, rfl, ?_, ?_, ?_, ?_, ?_, ?_⟩
  · rw [ShutdownAndUnrefLocked_eq]
  · rw [ShutdownAndUnrefLocked_eq]
  · rw [ShutdownAndUnrefLocked_eq]
    unfold Resolver.ShutdownLocked
    cases s.pending <;> rfl
  · rw [ShutdownAndUnrefLocked_eq, countShutdownRuns_append]
    unfold Resolver.ShutdownLocked
    cases s.pending <;> rfl
  · rw [ShutdownAndUnrefLocked_eq, countRefReleases_append]
    unfold Resolver.ShutdownLocked
    cases s.pending <;> rfl
  · rw [ShutdownAndUnrefLocked_eq, Unref_refCount]
    unfold Resolver.ShutdownLocked
    cases s.pending <;> rfl

/-- C2: if a delivery is pending when shutdown runs, `ShutdownLocked` completes
it with an absent result and an error condition and clears the pending slot;
in the scheduled shutdown task exactly one completion is delivered, and it is
delivered before the reference release. -/
theorem shutdown_resolves_pending_delivery (s : ResolverState) (cb : Nat)
    (h : s.pending = some cb) :
    Resolver.ShutdownLocked s
      = ({ s with pending := none, shutdownDone := true },
         [TraceEvent.shutdownLockedRun,
          TraceEvent.completed cb none grpc_error.cancelled])
    ∧ countCompletions (Resolver.ShutdownAndUnrefLocked s).2 = 1
    ∧ (Resolver.ShutdownAndUnrefLocked s).2
      = [TraceEvent.shutdownLockedRun,
         TraceEvent.completed cb none grpc_error.cancelled,
         TraceEvent.refReleased] := by
  have h1 : Resolver.ShutdownLocked s
      = ({ s with pending := none, shutdownDone := true },
         [TraceEvent.shutdownLockedRun,
          TraceEvent.completed cb none grpc_error.cancelled]) := by
    unfold Resolver.ShutdownLocked
    rw [h]
  have h2 : (Resolver.ShutdownAndUnrefLocked s).2
      = [TraceEvent.shutdownLockedRun,
         TraceEvent.completed cb none grpc_error.cancelled,
         TraceEvent.refReleased] := by
    rw [ShutdownAndUnrefLocked_eq, h1]
    rfl
  refine ⟨h1, ?_, h2⟩
  rw [h2]
  rfl

/-- Witness for C2 at a concrete resolver with a pending delivery. -/
theorem shutdown_resolves_pending_delivery_witness :
    (Resolver.ShutdownAndUnrefLocked
      { refCount := 1, combiner := 1, combinerRefCount := 5, pending := some 7,
        queue := [], shutdownDone := false, destroyed := false, cached := none,
        fatal := false, redeliver := false }).2
    = [TraceEvent.shutdownLockedRun,
       TraceEvent.completed 7 none grpc_error.cancelled,
       TraceEvent.refReleased] :=
  (shutdown_resolves_pending_delivery _ 7 rfl).2.2

/-- C4: issuing a second delivery request while one is outstanding is rejected
with an assertion error, never silently queued or dropped. -/
theorem at_most_one_pending_delivery (s : ResolverState) (cb cb' : Nat)
    (h : s.pending = some cb) :
    Resolver.NextLocked s cb'
      = Except.error ResolverError.pendingDeliveryAlreadyExists := by
  unfold Resolver.NextLocked
  rw [h]

/-- Witness for C4 at a concrete resolver with a pending delivery. -/
theorem at_most_one_pending_delivery_witness :
    Resolver.NextLocked
      { refCount := 1, combiner := 1, combinerRefCount := 5, pending := some 7,
        queue := [], shutdownDone := false, destroyed := false, cached := none,
        fatal := false, redeliver := false } 8
      = Except.error ResolverError.pendingDeliveryAlreadyExists :=
  at_most_one_pending_delivery _ 7 8 rfl

/-- C5: when resolution is fatally broken, `NextLocked` writes an absent
result into the output slot and schedules `on_complete` with an error; and
every event `NextLocked` emits, in success and in failure alike, is a
completion carrying an output-slot value together with an error value — there
is no separate error channel. -/
theorem fatal_failure_absent_result_same_channel (s : ResolverState) (cb : Nat) :
    (s.fatal = true → s.pending = none →
      Resolver.NextLocked s cb
        = Except.ok (s, [TraceEvent.completed cb none grpc_error.cancelled]))
    ∧ (∀ s' tr, Resolver.NextLocked s cb = Except.ok (s', tr) →
        ∀ e ∈ tr, ∃ c r err, e = TraceEvent.completed c r err) := by
  constructor
  · intro hf hp
    unfold Resolver.NextLocked
    rw [hp]
    simp [hf]
  · intro s' tr hok e he
    unfold Resolver.NextLocked at hok
    cases hp : s.pending with
    | some cb0 => rw [hp] at hok; simp at hok
    | none =>
        rw [hp] at hok
        by_cases hf : s.fatal = true
        · simp [hf] at hok
          obtain ⟨-, htr⟩ := hok
          subst htr
          simp at he
          exact ⟨cb, none, grpc_error.cancelled, he⟩
        · simp [hf] at hok
          by_cases hr : s.redeliver = true
          · simp [hr] at hok
            obtain ⟨-, htr⟩ := hok
            subst htr
            simp at he
            exact ⟨cb, s.cached, grpc_error.none, he⟩
          · simp [hr] at hok
            obtain ⟨-, htr⟩ := hok
            subst htr
            simp at he

/-- Witness for C5 at a concrete fatally-broken resolver. -/
theorem fatal_failure_absent_result_same_channel_witness :
    Resolver.NextLocked
      { refCount := 1, combiner := 1, combinerRefCount := 5, pending := none,
        queue := [], shutdownDone := false, destroyed := false, cached := none,
        fatal := true, redeliver := false } 9
      = Except.ok
          ({ refCount := 1, combiner := 1, combinerRefCount := 5, pending := none,
             queue := [], shutdownDone := false, destroyed := false, cached := none,
             fatal := true, redeliver := false },
           [TraceEvent.completed 9 none grpc_error.cancelled]) :=
  (fatal_failure_absent_result_same_channel _ 9).1 rfl rfl

/-- C8: a freshly created resolver has reference count exactly 1, owned by the
creating caller. -/
theorem create_refcount_one (c : grpc_combiner) (w : Nat) :
    (Resolver.create c w).refCount = 1 :=
  rfl

/-- C6: after `RequestReresolutionLocked`, the delivery completes within one
step: a pending delivery is completed in the same step with a copy of the
last-known-good result, and if none is pending the very next `NextLocked`
completes immediately with some result. -/
theorem reresolution_bounded_response (s : ResolverState) :
    (∀ cb, s.pending = some cb →
      Resolver.RequestReresolutionLocked s
        = ({ s with pending := none },
           [TraceEvent.completed cb s.cached grpc_error.none]))
    ∧ (s.pending = none → ∀ cb', ∃ s'' r e,
        Resolver.NextLocked (Resolver.RequestReresolutionLocked s).1 cb'
          = Except.ok (s'', [TraceEvent.completed cb' r e])) := by
  constructor
  · intro cb hp
    unfold Resolver.RequestReresolutionLocked
    rw [hp]
  · intro hp cb'
    have h1 : (Resolver.RequestReresolutionLocked s).1
        = { s with redeliver := true } := by
      unfold Resolver.RequestReresolutionLocked
      rw [hp]
    rw [h1]
    unfold Resolver.NextLocked
    by_cases hf : s.fatal = true
    · refine ⟨{ s with redeliver := true }, none, grpc_error.cancelled, ?_⟩
      simp [hp, hf]
    · refine ⟨{ s with redeliver := false }, s.cached, grpc_error.none, ?_⟩
      simp [hp, hf]

/-- Witness for C6: a concrete resolver with a pending delivery completed by
re-resolution, and a concrete idle resolver whose next delivery completes
immediately after re-resolution. -/
theorem reresolution_bounded_response_witness :
    (Resolver.RequestReresolutionLocked
        { refCount := 1, combiner := 1, combinerRefCount := 5, pending := some 7,
          queue := [], shutdownDone := false, destroyed := false,
          cached := some { addresses := [4] }, fatal := false, redeliver := false }
      = ({ refCount := 1, combiner := 1, combinerRefCount := 5, pending := none,
           queue := [], shutdownDone := false, destroyed := false,
           cached := some { addresses := [4] }, fatal := false, redeliver := false },
         [TraceEvent.completed 7 (some { addresses := [4] }) grpc_error.none]))
    ∧ (∃ s'' r e,
        Resolver.NextLocked
          (Resolver.RequestReresolutionLocked
            { refCount := 1, combiner := 2, combinerRefCount := 5, pending := none,
              queue := [], shutdownDone := false, destroyed := false,
              cached := some { addresses := [4] }, fatal := false,
              redeliver := false }).1 8
          = Except.ok (s'', [TraceEvent.completed 8 r e])) :=
  ⟨(reresolution_bounded_response _).1 7 rfl,
   (reresolution_bounded_response _).2 rfl 8⟩

/-- C10: the only operations in the client-visible alphabet (which, mirroring
the deleted copy operations and the protected destructor of the class,
contains no copy and no direct destruction) that can move a live resolver to
the destroyed state are the reference-release paths, and they do so exactly
when the reference count reaches zero. -/
theorem destruction_only_via_release (s : ResolverState) (op : ClientOp)
    (s' : ResolverState) (tr : List TraceEvent)
    (hok : execOp s op = Except.ok (s', tr))
    (hnd : s.destroyed = false) (hd : s'.destroyed = true) :
    (op = ClientOp.releaseRef ∨ op = ClientOp.runSerializerTask)
    ∧ s'.refCount = 0 := by
  cases op with
  | nextLocked cb =>
      unfold execOp Resolver.NextLocked at hok
      cases hp : s.pending with
      | some cb0 => rw [hp] at hok; simp at hok
      | none =>
          rw [hp] at hok
          by_cases hf : s.fatal = true
          · simp [hf] at hok
            obtain ⟨hs, -⟩ := hok
            rw [← hs] at hd
            rw [hnd] at hd
            exact absurd hd (by simp)
          · by_cases hr : s.redeliver = true
            · simp [hf, hr] at hok
              obtain ⟨hs, -⟩ := hok
              rw [← hs] at hd
              simp at hd
              rw [hnd] at hd
              exact absurd hd (by simp)
            · simp [hf, hr] at hok
              obtain ⟨hs, -⟩ := hok
              rw [← hs] at hd
              simp at hd
              rw [hnd] at hd
              exact absurd hd (by simp)
  | requestReresolution =>
      unfold execOp Resolver.RequestReresolutionLocked at hok
      cases hp : s.pending with
      | some cb0 =>
          rw [hp] at hok
          simp at hok
          obtain ⟨hs, -⟩ := hok
          rw [← hs] at hd
          simp at hd
          rw [hnd] at hd
          exact absurd hd (by simp)
      | none =>
          rw [hp] at hok
          simp at hok
          obtain ⟨hs, -⟩ := hok
          rw [← hs] at hd
          simp at hd
          rw [hnd] at hd
          exact absurd hd (by simp)
  | orphan =>
      unfold execOp Resolver.Orphan at hok
      simp at hok
      obtain ⟨hs, -⟩ := hok
      rw [← hs] at hd
      simp at hd
      rw [hnd] at hd
      exact absurd hd (by simp)
  | addRef =>
      unfold execOp Resolver.Ref at hok
      simp at hok
      obtain ⟨hs, -⟩ := hok
      rw [← hs] at hd
      simp at hd
      rw [hnd] at hd
      exact absurd hd (by simp)
  | releaseRef =>
      unfold execOp Resolver.Unref at hok
      by_cases hz : s.refCount - 1 = 0
      · simp [hz] at hok
        obtain ⟨hs, -⟩ := hok
        rw [← hs]
        exact ⟨Or.inl rfl, rfl⟩
      · simp [hz] at hok
        obtain ⟨hs, -⟩ := hok
        rw [← hs] at hd
        simp at hd
        rw [hnd] at hd
        exact absurd hd (by simp)
  | runSerializerTask =>
      unfold execOp at hok
      cases hq : s.queue with
      | nil =>
          rw [hq] at hok
          simp at hok
          obtain ⟨hs, -⟩ := hok
          rw [← hs] at hd
          rw [hnd] at hd
          exact absurd hd (by simp)
      | cons t rest =>
          cases t
          rw [hq] at hok
          simp only [ShutdownAndUnrefLocked_eq] at hok
          set u := (Resolver.ShutdownLocked { s with queue := rest }).1 with hu
          have hud : u.destroyed = false := by
            rw [hu]
            unfold Resolver.ShutdownLocked
            cases hp : s.pending <;> simp [hnd]
          unfold Resolver.Unref at hok
          by_cases hz : u.refCount - 1 = 0
          · simp [hz] at hok
            obtain ⟨hs, -⟩ := hok
            rw [← hs]
            exact ⟨Or.inr rfl, rfl⟩
          · simp [hz] at hok
            obtain ⟨hs, -⟩ := hok
            rw [← hs] at hd
            simp at hd
            rw [hud] at hd
            exact absurd hd (by simp)

/-- Witness for C10: a concrete release of the last reference destroys the
resolver. -/
theorem destruction_only_via_release_witness :
    (ClientOp.releaseRef = ClientOp.releaseRef
      ∨ ClientOp.releaseRef = ClientOp.runSerializerTask)
    ∧ ({ refCount := 0, combiner := 1, combinerRefCount := 5, pending := none,
         queue := [], shutdownDone := false, destroyed := true, cached := none,
         fatal := false, redeliver := false } : ResolverState).refCount = 0 :=
  destruction_only_via_release (Resolver.create 1 5) ClientOp.releaseRef
    { refCount := 0, combiner := 1, combinerRefCount := 5, pending := none,
      queue := [], shutdownDone := false, destroyed := true, cached := none,
      fatal := false, redeliver := false }
    [TraceEvent.refReleased] rfl rfl rfl

/-! Decomposition of `runOps` and frame lemmas for the induction proofs. -/

lemma runOps_cons_ok (s : ResolverState) (op : ClientOp) (ops : List ClientOp)
    (s' : ResolverState) (tr : List TraceEvent)
    (h : runOps s (op :: ops) = Except.ok (s', tr)) :
    ∃ s₁ tr₁ tr₂, execOp s op = Except.ok (s₁, tr₁)
      ∧ runOps s₁ ops = Except.ok (s', tr₂) ∧ tr = tr₁ ++ tr₂ := by
  unfold runOps at h
  split at h
  next e heq => exact Except.noConfusion h
  next s₁ tr₁ heq =>
    split at h
    next e2 heq2 => exact Except.noConfusion h
    next s₂ tr₂ heq2 =>
      simp only [Except.ok.injEq, Prod.mk.injEq] at h
      obtain ⟨hs, htr⟩ := h
      subst hs
      exact ⟨s₁, tr₁, tr₂, heq, heq2, htr.symm⟩

lemma runOps_nil_ok (s s' : ResolverState) (tr : List TraceEvent)
    (h : runOps s [] = Except.ok (s', tr)) : s' = s ∧ tr = [] := by
  unfold runOps at h
  simp only [Except.ok.injEq, Prod.mk.injEq] at h
  exact ⟨h.1.symm, h.2.symm⟩

lemma ShutdownLocked_frame (s : ResolverState) :
    (Resolver.ShutdownLocked s).1.combiner = s.combiner
    ∧ (Resolver.ShutdownLocked s).1.combinerRefCount = s.combinerRefCount
    ∧ (Resolver.ShutdownLocked s).1.queue = s.queue
    ∧ (Resolver.ShutdownLocked s).1.refCount = s.refCount
    ∧ (Resolver.ShutdownLocked s).1.shutdownDone = true
    ∧ (Resolver.ShutdownLocked s).1.destroyed = s.destroyed := by
  unfold Resolver.ShutdownLocked
  cases s.pending <;> exact ⟨rfl, rfl, rfl, rfl, rfl, rfl⟩

lemma Unref_frame (s : ResolverState) :
    (Resolver.Unref s).1.combiner = s.combiner
    ∧ (Resolver.Unref s).1.combinerRefCount = s.combinerRefCount
    ∧ (Resolver.Unref s).1.queue = s.queue
    ∧ (Resolver.Unref s).1.shutdownDone = s.shutdownDone := by
  unfold Resolver.Unref
  split <;> exact ⟨rfl, rfl, rfl, rfl⟩

lemma execOp_combiner_frame (s : ResolverState) (op : ClientOp)
    (s' : ResolverState) (tr : List TraceEvent)
    (h : execOp s op = Except.ok (s', tr)) :
    s'.combiner = s.combiner ∧ s'.combinerRefCount = s.combinerRefCount := by
  cases op with
  | nextLocked cb =>
      unfold execOp Resolver.NextLocked at h
      cases hp : s.pending with
      | none =>
          rw [hp] at h
          split_ifs at h <;>
            · simp only [Except.ok.injEq, Prod.mk.injEq] at h
              obtain ⟨hs, -⟩ := h
              subst hs
              exact ⟨rfl, rfl⟩
      | some cb0 => rw [hp] at h; simp at h
  | requestReresolution =>
      unfold execOp Resolver.RequestReresolutionLocked at h
      cases hp : s.pending with
      | none =>
          rw [hp] at h
          simp only [Except.ok.injEq, Prod.mk.injEq] at h
          obtain ⟨hs, -⟩ := h
          subst hs
          exact ⟨rfl, rfl⟩
      | some cb0 =>
          rw [hp] at h
          simp only [Except.ok.injEq, Prod.mk.injEq] at h
          obtain ⟨hs, -⟩ := h
          subst hs
          exact ⟨rfl, rfl⟩
  | orphan =>
      unfold execOp Resolver.Orphan at h
      simp only [Except.ok.injEq, Prod.mk.injEq] at h
      obtain ⟨hs, -⟩ := h
      subst hs
      exact ⟨rfl, rfl⟩
  | addRef =>
      unfold execOp Resolver.Ref at h
      simp only [Except.ok.injEq, Prod.mk.injEq] at h
      obtain ⟨hs, -⟩ := h
      subst hs
      exact ⟨rfl, rfl⟩
  | releaseRef =>
      unfold execOp Resolver.Unref at h
      split_ifs at h <;>
        · simp only [Except.ok.injEq, Prod.mk.injEq] at h
          obtain ⟨hs, -⟩ := h
          subst hs
          exact ⟨rfl, rfl⟩
  | runSerializerTask =>
      unfold execOp at h
      cases hq : s.queue with
      | nil =>
          rw [hq] at h
          simp only [Except.ok.injEq, Prod.mk.injEq] at h
          obtain ⟨hs, -⟩ := h
          subst hs
          exact ⟨rfl, rfl⟩
      | cons t rest =>
          cases t
          rw [hq] at h
          simp only [ShutdownAndUnrefLocked_eq, Except.ok.injEq, Prod.mk.injEq] at h
          obtain ⟨hs, -⟩ := h
          subst hs
          refine ⟨?_, ?_⟩
          · rw [(Unref_frame _).1, (ShutdownLocked_frame _).1]
          · rw [(Unref_frame _).2.1, (ShutdownLocked_frame _).2.1]

lemma runOps_combiner_frame (ops : List ClientOp) :
    ∀ s s' tr, runOps s ops = Except.ok (s', tr) →
    s'.combiner = s.combiner ∧ s'.combinerRefCount = s.combinerRefCount := by
  induction ops with
  | nil =>
      intro s s' tr h
      obtain ⟨hs, -⟩ := runOps_nil_ok s s' tr h
      subst hs
      exact ⟨rfl, rfl⟩
  | cons op ops ih =>
      intro s s' tr h
      obtain ⟨s₁, tr₁, tr₂, he, hr, -⟩ := runOps_cons_ok s op ops s' tr h
      obtain ⟨h1, h2⟩ := execOp_combiner_frame s op s₁ tr₁ he
      obtain ⟨h3, h4⟩ := ih s₁ s' tr₂ hr
      exact ⟨h3.trans h1, h4.trans h2⟩

/-- C9: the resolver references but does not own its combiner: `combiner()`
returns the handle passed at construction, no sequence of operations —
including shutdown and destruction — changes the stored handle, and the
combiner's own reference count is left unchanged by construction and by every
operation. -/
theorem combiner_not_owned_invariant (c : grpc_combiner) (w : Nat)
    (ops : List ClientOp) (s' : ResolverState) (tr : List TraceEvent)
    (h : runOps (Resolver.create c w) ops = Except.ok (s', tr)) :
    Resolver.combiner (Resolver.create c w) = c
    ∧ (Resolver.create c w).combinerRefCount = w
    ∧ Resolver.combiner s' = c
    ∧ s'.combinerRefCount = w := by
  obtain ⟨h1, h2⟩ := runOps_combiner_frame ops (Resolver.create c w) s' tr h
  exact ⟨rfl, rfl, h1, h2⟩

/-- Witness for C9 over a concrete full lifecycle (orphan, then the serializer
runs the shutdown task and the resolver is destroyed). -/
theorem combiner_not_owned_invariant_witness :
    Resolver.combiner (Resolver.create 2 7) = 2
    ∧ (Resolver.create 2 7).combinerRefCount = 7
    ∧ Resolver.combiner
        { refCount := 0, combiner := 2, combinerRefCount := 7, pending := none,
          queue := [], shutdownDone := true, destroyed := true, cached := none,
          fatal := false, redeliver := false } = 2
    ∧ ({ refCount := 0, combiner := 2, combinerRefCount := 7, pending := none,
         queue := [], shutdownDone := true, destroyed := true, cached := none,
         fatal := false, redeliver := false } : ResolverState).combinerRefCount = 7 :=
  combiner_not_owned_invariant 2 7 [ClientOp.orphan, ClientOp.runSerializerTask]
    { refCount := 0, combiner := 2, combinerRefCount := 7, pending := none,
      queue := [], shutdownDone := true, destroyed := true, cached := none,
      fatal := false, redeliver := false }
    [TraceEvent.taskScheduled, TraceEvent.shutdownLockedRun, TraceEvent.refReleased]
    rfl

lemma ShutdownLocked_runs (s : ResolverState) :
    countShutdownRuns (Resolver.ShutdownLocked s).2 = 1 := by
  unfold Resolver.ShutdownLocked
  cases s.pending <;> rfl

lemma execOp_shutdown_count (s : ResolverState) (op : ClientOp)
    (s' : ResolverState) (tr : List TraceEvent)
    (h : execOp s op = Except.ok (s', tr)) :
    countShutdownRuns tr + s'.queue.length = s.queue.length + countOrphans [op] := by
  cases op with
  | nextLocked cb =>
      unfold execOp Resolver.NextLocked at h
      cases hp : s.pending with
      | none =>
          rw [hp] at h
          split_ifs at h <;>
            · simp only [Except.ok.injEq, Prod.mk.injEq] at h
              obtain ⟨hs, htr⟩ := h
              subst hs
              subst htr
              simp [countShutdownRuns, countOrphans]
      | some cb0 => rw [hp] at h; simp at h
  | requestReresolution =>
      unfold execOp Resolver.RequestReresolutionLocked at h
      cases hp : s.pending with
      | none =>
          rw [hp] at h
          simp only [Except.ok.injEq, Prod.mk.injEq] at h
          obtain ⟨hs, htr⟩ := h
          subst hs
          subst htr
          simp [countShutdownRuns, countOrphans]
      | some cb0 =>
          rw [hp] at h
          simp only [Except.ok.injEq, Prod.mk.injEq] at h
          obtain ⟨hs, htr⟩ := h
          subst hs
          subst htr
          simp [countShutdownRuns, countOrphans]
  | orphan =>
      unfold execOp Resolver.Orphan at h
      simp only [Except.ok.injEq, Prod.mk.injEq] at h
      obtain ⟨hs, htr⟩ := h
      subst hs
      subst htr
      simp [countShutdownRuns, countOrphans]
  | addRef =>
      unfold execOp Resolver.Ref at h
      simp only [Except.ok.injEq, Prod.mk.injEq] at h
      obtain ⟨hs, htr⟩ := h
      subst hs
      subst htr
      simp [countShutdownRuns, countOrphans]
  | releaseRef =>
      unfold execOp Resolver.Unref at h
      split_ifs at h <;>
        · simp only [Except.ok.injEq, Prod.mk.injEq] at h
          obtain ⟨hs, htr⟩ := h
          subst hs
          subst htr
          simp [countShutdownRuns, countOrphans]
  | runSerializerTask =>
      unfold execOp at h
      cases hq : s.queue with
      | nil =>
          rw [hq] at h
          simp only [Except.ok.injEq, Prod.mk.injEq] at h
          obtain ⟨hs, htr⟩ := h
          subst hs
          subst htr
          simp [countShutdownRuns, countOrphans, hq]
      | cons t rest =>
          cases t
          rw [hq] at h
          simp only [ShutdownAndUnrefLocked_eq, Except.ok.injEq, Prod.mk.injEq] at h
          obtain ⟨hs, htr⟩ := h
          subst hs
          subst htr
          rw [countShutdownRuns_append, ShutdownLocked_runs,
            (Unref_frame _).2.2.1, (ShutdownLocked_frame _).2.2.1]
          show 1 + countShutdownRuns [TraceEvent.refReleased] + rest.length
            = (CombinerTask.shutdownAndUnref :: rest).length
              + countOrphans [ClientOp.runSerializerTask]
          simp only [countShutdownRuns, countOrphans, List.length_cons]
          omega

lemma runOps_shutdown_count (ops : List ClientOp) :
    ∀ s s' tr, runOps s ops = Except.ok (s', tr) →
    countShutdownRuns tr + s'.queue.length = s.queue.length + countOrphans ops := by
  induction ops with
  | nil =>
      intro s s' tr h
      obtain ⟨hs, htr⟩ := runOps_nil_ok s s' tr h
      subst hs
      subst htr
      simp [countShutdownRuns, countOrphans]
  | cons op ops ih =>
      intro s s' tr h
      obtain ⟨s₁, tr₁, tr₂, he, hr, htr⟩ := runOps_cons_ok s op ops s' tr h
      subst htr
      have h1 := execOp_shutdown_count s op s₁ tr₁ he
      have h2 := ih s₁ s' tr₂ hr
      have h3 : countOrphans (op :: ops) = countOrphans [op] + countOrphans ops := by
        cases op <;> simp [countOrphans] <;> omega
      rw [countShutdownRuns_append]
      omega

/-- C7: if `Orphan()` is called exactly once over the resolver's life, the
shutdown logic never runs twice, and once the serializer has drained its task
queue it has run exactly once. -/
theorem orphan_once_shutdown_exactly_once (c : grpc_combiner) (w : Nat)
    (ops : List ClientOp) (s' : ResolverState) (tr : List TraceEvent)
    (h : runOps (Resolver.create c w) ops = Except.ok (s', tr))
    (honce : countOrphans ops = 1) :
    countShutdownRuns tr ≤ 1 ∧ (s'.queue = [] → countShutdownRuns tr = 1) := by
  have hc := runOps_shutdown_count ops (Resolver.create c w) s' tr h
  have hq : (Resolver.create c w).queue = [] := rfl
  rw [hq, honce] at hc
  simp only [List.length_nil] at hc
  constructor
  · omega
  · intro he
    rw [he] at hc
    simp only [List.length_nil] at hc
    omega

/-- Witness for C7 on a concrete lifecycle with one orphan call and a drained
serializer queue. -/
theorem orphan_once_shutdown_exactly_once_witness :
    countShutdownRuns
        [TraceEvent.taskScheduled, TraceEvent.shutdownLockedRun,
         TraceEvent.refReleased] ≤ 1
    ∧ (([] : List CombinerTask) = [] →
        countShutdownRuns
          [TraceEvent.taskScheduled, TraceEvent.shutdownLockedRun,
           TraceEvent.refReleased] = 1) :=
  orphan_once_shutdown_exactly_once 1 5
    [ClientOp.orphan, ClientOp.runSerializerTask]
    { refCount := 0, combiner := 1, combinerRefCount := 5, pending := none,
      queue := [], shutdownDone := true, destroyed := true, cached := none,
      fatal := false, redeliver := false }
    [TraceEvent.taskScheduled, TraceEvent.shutdownLockedRun, TraceEvent.refReleased]
    rfl rfl

lemma LifecycleInv_congr (s s' : ResolverState) (ext rem : Nat)
    (h : LifecycleInv s ext rem)
    (h1 : s'.refCount = s.refCount) (h2 : s'.queue = s.queue)
    (h3 : s'.shutdownDone = s.shutdownDone) (h4 : s'.destroyed = s.destroyed) :
    LifecycleInv s' ext rem := by
  unfold LifecycleInv at h ⊢
  rw [h1, h2, h3, h4]
  exact h

lemma NextLocked_frame (s : ResolverState) (cb : Nat) (s' : ResolverState)
    (tr : List TraceEvent) (h : Resolver.NextLocked s cb = Except.ok (s', tr)) :
    s'.refCount = s.refCount ∧ s'.queue = s.queue
    ∧ s'.shutdownDone = s.shutdownDone ∧ s'.destroyed = s.destroyed := by
  unfold Resolver.NextLocked at h
  cases hp : s.pending with
  | none =>
      rw [hp] at h
      split_ifs at h <;>
        · simp only [Except.ok.injEq, Prod.mk.injEq] at h
          obtain ⟨hs, -⟩ := h
          subst hs
          exact ⟨rfl, rfl, rfl, rfl⟩
  | some cb0 => rw [hp] at h; simp at h

lemma RequestReresolution_frame (s : ResolverState) :
    (Resolver.RequestReresolutionLocked s).1.refCount = s.refCount
    ∧ (Resolver.RequestReresolutionLocked s).1.queue = s.queue
    ∧ (Resolver.RequestReresolutionLocked s).1.shutdownDone = s.shutdownDone
    ∧ (Resolver.RequestReresolutionLocked s).1.destroyed = s.destroyed := by
  unfold Resolver.RequestReresolutionLocked
  cases s.pending <;> exact ⟨rfl, rfl, rfl, rfl⟩

lemma runOps_lifecycle (ops : List ClientOp) :
    ∀ s ext, LifecycleInv s ext (countOrphans ops) →
      releasesBalanced ops ext = true →
      ∀ s' tr, runOps s ops = Except.ok (s', tr) →
      ∃ ext', LifecycleInv s' ext' 0 := by
  induction ops with
  | nil =>
      intro s ext hinv hbal s' tr h
      obtain ⟨hs, -⟩ := runOps_nil_ok s s' tr h
      subst hs
      exact ⟨ext, hinv⟩
  | cons op ops ih =>
      intro s ext hinv hbal s' tr h
      obtain ⟨s₁, tr₁, tr₂, he, hr, -⟩ := runOps_cons_ok s op ops s' tr h
      cases op with
      | nextLocked cb =>
          obtain ⟨f1, f2, f3, f4⟩ := NextLocked_frame s cb s₁ tr₁ he
          exact ih s₁ ext (LifecycleInv_congr s s₁ ext _ hinv f1 f2 f3 f4)
            hbal s' tr₂ hr
      | requestReresolution =>
          have hpair : Resolver.RequestReresolutionLocked s = (s₁, tr₁) :=
            Except.ok.inj he
          have h1 : s₁ = (Resolver.RequestReresolutionLocked s).1 := by
            rw [hpair]
          obtain ⟨f1, f2, f3, f4⟩ := RequestReresolution_frame s
          rw [← h1] at f1 f2 f3 f4
          exact ih s₁ ext (LifecycleInv_congr s s₁ ext _ hinv f1 f2 f3 f4)
            hbal s' tr₂ hr
      | orphan =>
          have hpair : Resolver.Orphan s = (s₁, tr₁) := Except.ok.inj he
          have h1 : s₁ = (Resolver.Orphan s).1 := by rw [hpair]
          have hco : countOrphans (ClientOp.orphan :: ops)
              = countOrphans ops + 1 := rfl
          have hinv₁ : LifecycleInv s₁ ext (countOrphans ops) := by
            rw [h1]
            obtain ⟨hF, hT⟩ := hinv
            constructor
            · intro hsd
              obtain ⟨a1, a2, a3⟩ := hF hsd
              refine ⟨a1, ?_, a3⟩
              simp only [Resolver.Orphan, List.length_append, List.length_cons,
                List.length_nil]
              omega
            · intro hsd
              obtain ⟨-, -, a3⟩ := hT hsd
              exfalso
              omega
          exact ih s₁ ext hinv₁ hbal s' tr₂ hr
      | addRef =>
          have hpair : (Resolver.Ref s, ([] : List TraceEvent)) = (s₁, tr₁) :=
            Except.ok.inj he
          have h1 : s₁ = Resolver.Ref s := by
            rw [← (Prod.mk.injEq _ _ _ _).mp hpair |>.1]
          have hinv₁ : LifecycleInv s₁ (ext + 1) (countOrphans ops) := by
            rw [h1]
            obtain ⟨hF, hT⟩ := hinv
            constructor
            · intro hsd
              obtain ⟨a1, a2, a3⟩ := hF hsd
              refine ⟨?_, a2, a3⟩
              simp only [Resolver.Ref]
              omega
            · intro hsd
              obtain ⟨a1, a2, a3⟩ := hT hsd
              refine ⟨?_, a2, a3⟩
              simp only [Resolver.Ref]
              omega
          exact ih s₁ (ext + 1) hinv₁ hbal s' tr₂ hr
      | releaseRef =>
          have hpair : Resolver.Unref s = (s₁, tr₁) := Except.ok.inj he
          have h1 : s₁ = (Resolver.Unref s).1 := by rw [hpair]
          cases ext with
          | zero => exact Bool.noConfusion hbal
          | succ ext₀ =>
              have hinv₁ : LifecycleInv s₁ ext₀ (countOrphans ops) := by
                rw [h1]
                obtain ⟨hF, hT⟩ := hinv
                unfold Resolver.Unref
                by_cases hz : s.refCount - 1 = 0
                · rw [if_pos hz]
                  constructor
                  · intro hsd
                    exfalso
                    obtain ⟨a1, -, -⟩ := hF hsd
                    omega
                  · intro hsd
                    obtain ⟨a1, a2, a3⟩ := hT hsd
                    refine ⟨?_, a2, a3⟩
                    show (0 : Nat) = ext₀
                    omega
                · rw [if_neg hz]
                  constructor
                  · intro hsd
                    obtain ⟨a1, a2, a3⟩ := hF hsd
                    refine ⟨?_, a2, a3⟩
                    show s.refCount - 1 = 1 + ext₀
                    omega
                  · intro hsd
                    obtain ⟨a1, a2, a3⟩ := hT hsd
                    refine ⟨?_, a2, a3⟩
                    show s.refCount - 1 = ext₀
                    omega
              exact ih s₁ ext₀ hinv₁ hbal s' tr₂ hr
      | runSerializerTask =>
          unfold execOp at he
          cases hq : s.queue with
          | nil =>
              rw [hq] at he
              simp only [Except.ok.injEq, Prod.mk.injEq] at he
              obtain ⟨hs, -⟩ := he
              subst hs
              exact ih s ext hinv hbal s' tr₂ hr
          | cons t rest =>
              cases t
              rw [hq] at he
              simp only [ShutdownAndUnrefLocked_eq, Except.ok.injEq,
                Prod.mk.injEq] at he
              obtain ⟨hs, -⟩ := he
              obtain ⟨hF, hT⟩ := hinv
              cases hsd : s.shutdownDone with
              | true =>
                  obtain ⟨-, a2, -⟩ := hT hsd
                  rw [hq] at a2
                  exact List.noConfusion a2
              | false =>
                  obtain ⟨a1, a2, a3⟩ := hF hsd
                  rw [hq] at a2
                  simp only [List.length_cons] at a2
                  have hrest : rest.length = 0 := by omega
                  have hrem : countOrphans (ClientOp.runSerializerTask :: ops)
                      = countOrphans ops := rfl
                  have hrem0 : countOrphans ops = 0 := by omega
                  have hinv₁ : LifecycleInv s₁ ext (countOrphans ops) := by
                    rw [← hs]
                    constructor
                    · intro hsd'
                      exfalso
                      rw [(Unref_frame _).2.2.2,
                        (ShutdownLocked_frame _).2.2.2.2.1] at hsd'
                      exact Bool.noConfusion hsd'
                    · intro hsd'
                      refine ⟨?_, ?_, hrem0⟩
                      · rw [Unref_refCount,
                          (ShutdownLocked_frame _).2.2.2.1]
                        show s.refCount - 1 = ext
                        omega
                      · rw [(Unref_frame _).2.2.1,
                          (ShutdownLocked_frame _).2.2.1]
                        exact List.length_eq_zero.mp hrest
                  exact ih s₁ ext hinv₁ hbal s' tr₂ hr

/-- C3: for every sequence of operations in which each holder releases only
references it has acquired and the resolver is orphaned at most once, the
resolver is never destroyed unless `ShutdownLocked` has completed. -/
theorem no_destruction_before_shutdown (c : grpc_combiner) (w : Nat)
    (ops : List ClientOp) (s' : ResolverState) (tr : List TraceEvent)
    (h : runOps (Resolver.create c w) ops = Except.ok (s', tr))
    (hbal : releasesBalanced ops 0 = true)
    (honce : countOrphans ops ≤ 1)
    (hd : s'.destroyed = true) :
    s'.shutdownDone = true := by
  have hinv : LifecycleInv (Resolver.create c w) 0 (countOrphans ops) := by
    constructor
    · intro hsd
      refine ⟨rfl, ?_, rfl⟩
      have hq : (Resolver.create c w).queue = [] := rfl
      rw [hq]
      simp only [List.length_nil]
      omega
    · intro hsd
      exact absurd hsd (by simp [Resolver.create])
  obtain ⟨ext', hF, hT⟩ := runOps_lifecycle ops (Resolver.create c w) 0 hinv
    hbal s' tr h
  cases hsd : s'.shutdownDone with
  | true => rfl
  | false =>
      obtain ⟨-, -, a3⟩ := hF hsd
      rw [a3] at hd
      exact Bool.noConfusion hd

/-- Witness for C3 on a concrete lifecycle in which the resolver is destroyed
after shutdown. -/
theorem no_destruction_before_shutdown_witness :
    ({ refCount := 0, combiner := 1, combinerRefCount := 5, pending := none,
       queue := [], shutdownDone := true, destroyed := true, cached := none,
       fatal := false, redeliver := false } : ResolverState).shutdownDone = true :=
  no_destruction_before_shutdown 1 5
    [ClientOp.addRef, ClientOp.orphan, ClientOp.runSerializerTask,
     ClientOp.releaseRef]
    { refCount := 0, combiner := 1, combinerRefCount := 5, pending := none,
      queue := [], shutdownDone := true, destroyed := true, cached := none,
      fatal := false, redeliver := false }
    [TraceEvent.taskScheduled, TraceEvent.shutdownLockedRun,
     TraceEvent.refReleased, TraceEvent.refReleased]
    rfl rfl (by decide) rfl

end VisEDResolver
